import Mathlib

/-!
Shallow embedding of the stamp-collection persistence core:
`enhanced_stamp.py` (record model) and `database_manager.py`
(persistence layer), together with theorems checking the spec's
claims against it.

Modelling conventions:
* Python `Decimal` currency amounts are modelled as exact rationals
  (`Rat`).  For `DECIMAL(10,2)` amounts the store/load path
  (`float(...)` on insert, `Decimal(str(...))` on load) is
  value-preserving: a decimal with at most 15 significant digits,
  converted to the nearest IEEE double and printed back with the
  shortest round-tripping representation, yields the same decimal
  value.  So single-value storage is modelled as the identity on the
  value.  SQL arithmetic (the statistics SUM) is modelled exactly;
  the real code performs it on doubles, which is noted where relevant.
* SQLite rows are tuples of nullable column values; each column is an
  `Option`.  Booleans are stored as 0/1 (`Option Bool` here).
* Python truthiness drives several branches (`x or d`,
  `if criteria[k]:`, `int(row[4]) if row[4] else None`): the falsy
  values of interest are `None`, `''`, `0` and `False`, and the
  helpers below spell this out.
* A `search_stamps` criteria dict is modelled as a structure of
  `Option` fields, `none` meaning the key is absent; a dict access on
  an absent key raises `KeyError`, modelled with `Except`.
* Every database operation is state-passing: it takes the table state
  and returns its result paired with the successor state, so that
  read-only operations can be seen to leave the state unchanged.
-/

namespace StampCollect

/-- Exact decimal currency amounts (`decimal.Decimal` in the source),
modelled as rationals. -/
abbrev Decimal := Rat

/-- The `Stamp` dataclass of `enhanced_stamp.py`, field for field,
with the same defaults. -/
structure Stamp where
  scott_number : String
  description : String
  country : Option String := none
  year : Option Int := none
  denomination : Option String := none
  color : Option String := none
  condition_grade : String := "Unknown"
  gum_condition : String := "Unknown"
  perforation : Option String := none
  used : Bool := false
  plate_block : Bool := false
  first_day_cover : Bool := false
  location : Option String := none
  notes : Option String := none
  qty_mint : Option Int := some 0
  qty_used : Option Int := some 0
  catalog_value_mint : Decimal := 0
  catalog_value_used : Decimal := 0
  purchase_price : Decimal := 0
  current_market_value : Decimal := 0
  want_list : Bool := false
  for_sale : Bool := false
  date_acquired : Option String := none
  source : Option String := none
  image_path : Option String := none
deriving DecidableEq, Repr

/-- `Stamp.calculate_total_value`: the one derived computation of the
record model, translated branch for branch from the source. -/
def Stamp.calculate_total_value (s : Stamp) : Decimal :=
  if s.used then
    let qty : Int := match s.qty_used with | some q => q | none => 0
    s.catalog_value_used * (qty : Decimal)
  else
    let qty : Int := match s.qty_mint with | some q => q | none => 0
    s.catalog_value_mint * (qty : Decimal)

/-- The `StampCollection` container of `enhanced_stamp.py`. -/
structure StampCollection where
  stamps : List Stamp := []
deriving DecidableEq, Repr

/-- `StampCollection.add_stamp`: append to the end. -/
def StampCollection.add_stamp (c : StampCollection) (s : Stamp) : StampCollection :=
  { c with stamps := c.stamps ++ [s] }

/-- `StampCollection.list_stamps`: the full ordered sequence. -/
def StampCollection.list_stamps (c : StampCollection) : List Stamp :=
  c.stamps

/-- One row of the `stamps` table: the integer primary key plus the 25
data columns, each nullable (`Option`), in schema order.  Booleans are
the stored 0/1 values; currency columns hold the stored numeric value
(see the note on `float` round-tripping in the file header). -/
structure Row where
  id : Nat
  scott_number : Option String
  description : Option String
  country : Option String
  year : Option Int
  denomination : Option String
  color : Option String
  condition_grade : Option String
  gum_condition : Option String
  perforation : Option String
  used : Option Bool
  plate_block : Option Bool
  first_day_cover : Option Bool
  location : Option String
  notes : Option String
  qty_mint : Option Int
  qty_used : Option Int
  catalog_value_mint : Option Decimal
  catalog_value_used : Option Decimal
  purchase_price : Option Decimal
  current_market_value : Option Decimal
  want_list : Option Bool
  for_sale : Option Bool
  date_acquired : Option String
  source : Option String
  image_path : Option String
deriving DecidableEq, Repr

/-- The stored table state: the rows in storage order plus the
`AUTOINCREMENT` counter for the next primary key. -/
structure DB where
  rows : List Row := []
  next_id : Nat := 1
deriving DecidableEq, Repr

/-- The empty store, as created by `_create_tables` on a fresh file. -/
def empty_db : DB := {}

/-- Python `x or d` on a nullable string: `None` and `''` are falsy. -/
def py_or_str (x : Option String) (d : String) : String :=
  match x with
  | none => d
  | some s => if s = "" then d else s

/-- `DatabaseManager._create_stamp_from_row`, translated line by line.
Notes on the truthiness branches of the source:
* `year`: `int(row[4]) if row[4] else None` sends both `NULL` and `0`
  to `None`.
* `condition_grade` and `gum_condition`: `str(row[i] or 'Unknown')`
  sends both `NULL` and `''` to `'Unknown'`.
* `qty_mint` and `qty_used`: `int(row[i] or 0)` equals `Option.getD 0`
  because the extra falsy case is `0 or 0 = 0`.
* currency: `Decimal(str(row[i] or '0.00'))` equals `Option.getD 0` on
  the value because the extra falsy case is `0.0`, whose decimal value
  is `0.00`. -/
def create_stamp_from_row (row : Row) : Stamp :=
  { scott_number := py_or_str row.scott_number ""
    description := py_or_str row.description ""
    country := row.country
    year := match row.year with
      | none => none
      | some y => if y = 0 then none else some y
    denomination := row.denomination
    color := row.color
    condition_grade := py_or_str row.condition_grade "Unknown"
    gum_condition := py_or_str row.gum_condition "Unknown"
    perforation := row.perforation
    used := row.used.getD false
    plate_block := row.plate_block.getD false
    first_day_cover := row.first_day_cover.getD false
    location := row.location
    notes := row.notes
    qty_mint := some (row.qty_mint.getD 0)
    qty_used := some (row.qty_used.getD 0)
    catalog_value_mint := row.catalog_value_mint.getD 0
    catalog_value_used := row.catalog_value_used.getD 0
    purchase_price := row.purchase_price.getD 0
    current_market_value := row.current_market_value.getD 0
    want_list := row.want_list.getD false
    for_sale := row.for_sale.getD false
    date_acquired := row.date_acquired
    source := row.source
    image_path := row.image_path }

/-- `DatabaseManager._stamp_to_tuple`: the 25 column values bound into
the INSERT/UPDATE statement, here together with the primary key `i`
the statement assigns the row (AUTOINCREMENT on insert, the WHERE id
on update).  Every bound value is non-NULL; the currency fields go
through `float(...)`, which is value-preserving for the DECIMAL(10,2)
domain (file header note). -/
def stamp_to_tuple (s : Stamp) (i : Nat) : Row :=
  { id := i
    scott_number := some s.scott_number
    description := some s.description
    country := s.country
    year := s.year
    denomination := s.denomination
    color := s.color
    condition_grade := some s.condition_grade
    gum_condition := some s.gum_condition
    perforation := s.perforation
    used := some s.used
    plate_block := some s.plate_block
    first_day_cover := some s.first_day_cover
    location := s.location
    notes := s.notes
    qty_mint := s.qty_mint
    qty_used := s.qty_used
    catalog_value_mint := some s.catalog_value_mint
    catalog_value_used := some s.catalog_value_used
    purchase_price := some s.purchase_price
    current_market_value := some s.current_market_value
    want_list := some s.want_list
    for_sale := some s.for_sale
    date_acquired := s.date_acquired
    source := s.source
    image_path := s.image_path }

/-- `DatabaseManager.add_stamp`: INSERT a new row, return the assigned
id (`cursor.lastrowid`) and the successor state. -/
def add_stamp (db : DB) (s : Stamp) : Nat × DB :=
  let i := db.next_id
  (i, { rows := db.rows ++ [stamp_to_tuple s i], next_id := i + 1 })

/-- `DatabaseManager.load_collection`: SELECT every row and append the
mapped records to a fresh collection, in storage order.  A pure read:
the state component is returned unchanged. -/
def load_collection (db : DB) : StampCollection × DB :=
  (db.rows.foldl (fun c row => c.add_stamp (create_stamp_from_row row)) {}, db)

/-- `DatabaseManager.update_stamp`: UPDATE ... WHERE id=?.  Zero rows
affected when the id is absent. -/
def update_stamp (db : DB) (stamp_id : Nat) (s : Stamp) : DB :=
  { db with rows := db.rows.map (fun r => if r.id = stamp_id then stamp_to_tuple s stamp_id else r) }

/-- `DatabaseManager.delete_stamp`: DELETE FROM stamps WHERE id=?. -/
def delete_stamp (db : DB) (stamp_id : Nat) : DB :=
  { db with rows := db.rows.filter (fun r => r.id ≠ stamp_id) }

/-- A `search_stamps` criteria dict.  `none` means the key is absent
from the dict (a lookup raises `KeyError`).  For `year_from` and
`year_to` the callers bind text-field contents: `some none` embeds the
empty string (falsy, so no constraint), `some (some n)` embeds a
non-empty numeric string, converted with `int(...)` when used. -/
structure Criteria where
  description : Option String := none
  scott_number : Option String := none
  country : Option String := none
  year_from : Option (Option Int) := none
  year_to : Option (Option Int) := none
  used_only : Option Bool := none
  want_list : Option Bool := none
deriving DecidableEq, Repr

/-- `criteria[k]` on a dict: the value when the key is present,
`KeyError` otherwise. -/
def key_get (x : Option α) (k : String) : Except String α :=
  match x with
  | none => Except.error ("KeyError: " ++ k)
  | some v => Except.ok v

/-- Whether the first character list is an initial segment of the
second. -/
def chars_head_match : List Char → List Char → Bool
  | [], _ => true
  | _ :: _, [] => false
  | a :: as, b :: bs => a = b && chars_head_match as bs

/-- Whether the first character list occurs contiguously inside the
second. -/
def chars_contains (pat : List Char) : List Char → Bool
  | [] => chars_head_match pat []
  | b :: bs => chars_head_match pat (b :: bs) || chars_contains pat bs

/-- SQLite `col LIKE '%pat%'`: true when `pat` occurs as a substring
of the column value, comparing case-insensitively (SQLite LIKE folds
ASCII case, `String.toLower` here); a NULL column never matches.  The
LIKE metacharacters `%` and `_` inside `pat` are not modelled — no
claim exercises them. -/
def sql_like_contains (col : Option String) (pat : String) : Bool :=
  match col with
  | none => false
  | some s => chars_contains pat.toLower.toList s.toLower.toList

/-- SQL `year >= n` on a nullable column: NULL compares to nothing. -/
def sql_year_ge (col : Option Int) (n : Int) : Bool :=
  match col with
  | none => false
  | some y => n ≤ y

/-- SQL `year <= n` on a nullable column. -/
def sql_year_le (col : Option Int) (n : Int) : Bool :=
  match col with
  | none => false
  | some y => y ≤ n

/-- The WHERE clause `search_stamps` builds: each truthy criterion
contributes one condition and the conditions are AND-joined (an
omitted condition is the vacuous `true`; with no conditions at all the
query has no WHERE clause and every row matches, which is the same
conjunction).  Arguments are the seven dict values in source order. -/
def matches_row (d sn co : String) (yf yt : Option Int) (uo wl : Bool)
    (r : Row) : Bool :=
  (d = "" || sql_like_contains r.description d) &&
  (sn = "" || sql_like_contains r.scott_number sn) &&
  (co = "" || sql_like_contains r.country co) &&
  (match yf with | none => true | some n => sql_year_ge r.year n) &&
  (match yt with | none => true | some n => sql_year_le r.year n) &&
  (!uo || r.used = some true) &&
  (!wl || r.want_list = some true)

/-- The predicate `search_stamps` runs, or the `KeyError` it raises:
the seven dict lookups happen in source order, so the first absent key
names the error. -/
def row_predicate (c : Criteria) : Except String (Row → Bool) :=
  match key_get c.description "description" with
  | Except.error e => Except.error e
  | Except.ok d =>
    match key_get c.scott_number "scott_number" with
    | Except.error e => Except.error e
    | Except.ok sn =>
      match key_get c.country "country" with
      | Except.error e => Except.error e
      | Except.ok co =>
        match key_get c.year_from "year_from" with
        | Except.error e => Except.error e
        | Except.ok yf =>
          match key_get c.year_to "year_to" with
          | Except.error e => Except.error e
          | Except.ok yt =>
            match key_get c.used_only "used_only" with
            | Except.error e => Except.error e
            | Except.ok uo =>
              match key_get c.want_list "want_list" with
              | Except.error e => Except.error e
              | Except.ok wl => Except.ok (matches_row d sn co yf yt uo wl)

/-- `DatabaseManager.search_stamps`: build the conjunctive predicate,
run the SELECT, and pair each matching row's id with its mapped
record, in storage order.  A pure read on the state. -/
def search_stamps (db : DB) (c : Criteria) :
    Except String (List (Nat × Stamp)) × DB :=
  match row_predicate c with
  | Except.error e => (Except.error e, db)
  | Except.ok p =>
      (Except.ok ((db.rows.filter p).map (fun r => (r.id, create_stamp_from_row r))), db)

/-- The dict returned by `DatabaseManager.get_statistics`. -/
structure Stats where
  total_stamps : Nat
  used_stamps : Nat
  mint_stamps : Nat
  countries : Nat
  total_catalog_value : Decimal
  average_value : Decimal
  want_list_items : Nat
  for_sale_items : Nat
deriving DecidableEq, Repr

/-- The per-row term of the statistics SUM:
`CASE WHEN used=1 THEN catalog_value_used * qty_used
      ELSE catalog_value_mint * qty_mint END`.
A NULL operand makes the product NULL, and SUM skips NULL terms. -/
def row_case_value (r : Row) : Option Decimal :=
  if r.used = some true then
    match r.catalog_value_used, r.qty_used with
    | some v, some q => some (v * (q : Decimal))
    | _, _ => none
  else
    match r.catalog_value_mint, r.qty_mint with
    | some v, some q => some (v * (q : Decimal))
    | _, _ => none

/-- `DatabaseManager.get_statistics`, with SQL aggregation modelled
exactly (the real code stores currency as doubles and lets SQLite sum
them in double precision; see the file header and the theorems).
`SUM(...)` over the rows is the fold below; on an empty table SQL SUM
is NULL and the source's `or 0` turns it into 0, which the fold
already is.  `COUNT(DISTINCT country)` counts distinct non-NULL
values.  A pure read on the state. -/
def get_statistics (db : DB) : Stats × DB :=
  let total := db.rows.length
  let used := (db.rows.filter (fun r => r.used = some true)).length
  let countries := (db.rows.filterMap Row.country).dedup.length
  let wl := (db.rows.filter (fun r => r.want_list = some true)).length
  let fs := (db.rows.filter (fun r => r.for_sale = some true)).length
  let total_value := (db.rows.filterMap row_case_value).foldl (· + ·) 0
  let avg : Decimal := if total > 0 then total_value / (total : Decimal) else 0
  ({ total_stamps := total
     used_stamps := used
     mint_stamps := total - used
     countries := countries
     total_catalog_value := total_value
     average_value := avg
     want_list_items := wl
     for_sale_items := fs }, db)

/-- One search criterion: a key together with a value the callers put
in the criteria dict (§4.3 of the spec: a single present criterion). -/
inductive Criterion where
  | description (s : String)
  | scott_number (s : String)
  | country (s : String)
  | year_from (y : Option Int)
  | year_to (y : Option Int)
  | used_only (b : Bool)
  | want_list (b : Bool)
deriving DecidableEq, Repr

/-- The dict key a criterion occupies, numbered in source order. -/
def Criterion.key : Criterion → Nat
  | .description _ => 0
  | .scott_number _ => 1
  | .country _ => 2
  | .year_from _ => 3
  | .year_to _ => 4
  | .used_only _ => 5
  | .want_list _ => 6

/-- Store one criterion's value under its key in a criteria dict. -/
def set_criterion (c : Criteria) : Criterion → Criteria
  | .description s => { c with description := some s }
  | .scott_number s => { c with scott_number := some s }
  | .country s => { c with country := some s }
  | .year_from y => { c with year_from := some y }
  | .year_to y => { c with year_to := some y }
  | .used_only b => { c with used_only := some b }
  | .want_list b => { c with want_list := some b }

/-- The criteria dict every caller starts from: all seven keys
present, each holding its falsy "no constraint" value (empty strings,
false flags). -/
def blank_criteria : Criteria :=
  { description := some ""
    scott_number := some ""
    country := some ""
    year_from := some none
    year_to := some none
    used_only := some false
    want_list := some false }

/-- A criteria dict with exactly one criterion filled in. -/
def of_one (a : Criterion) : Criteria :=
  set_criterion blank_criteria a

/-- A criteria dict with exactly two criteria filled in. -/
def of_two (a b : Criterion) : Criteria :=
  set_criterion (set_criterion blank_criteria a) b

/-- The set of ids a search result carries (none on a KeyError). -/
def result_ids (x : Except String (List (Nat × Stamp))) : Finset Nat :=
  match x with
  | Except.ok l => (l.map Prod.fst).toFinset
  | Except.error _ => ∅

/-- The list of matches a search result carries (none on a KeyError). -/
def result_list (x : Except String (List (Nat × Stamp))) : List (Nat × Stamp) :=
  match x with
  | Except.ok l => l
  | Except.error _ => []

/-! Concrete data used by counterexamples and witnesses. -/

/-- A plain valid stamp (the spec's first scenario record). -/
def sample_stamp : Stamp :=
  { scott_number := "US001"
    description := "Washington"
    country := some "USA"
    year := some 1932
    qty_mint := some 1
    catalog_value_mint := 5 }

/-- A one-row store holding `sample_stamp` under id 1. -/
def sample_db : DB := (add_stamp empty_db sample_stamp).2

/-- A valid record (non-empty `scott_number` and `description`) that
exercises every lossy branch of the row mapping at once: year 0, null
quantities, empty condition strings. -/
def bad_stamp : Stamp :=
  { scott_number := "A1"
    description := "Bad"
    year := some 0
    condition_grade := ""
    gum_condition := ""
    qty_mint := none
    qty_used := none }

/-- A stored row with every column non-NULL except the optional
strings; used as a base for row-level counterexamples. -/
def base_row : Row := stamp_to_tuple { scott_number := "S", description := "D" } 1

/-! Shared lemmas about the embedding. -/

/-- Folding `add_stamp` over rows appends the mapped records. -/
theorem foldl_add_stamp (rows : List Row) (c : StampCollection) :
    (rows.foldl (fun c row => c.add_stamp (create_stamp_from_row row)) c).stamps =
      c.stamps ++ rows.map create_stamp_from_row := by
  induction rows generalizing c with
  | nil => simp
  | cons r rs ih =>
      simp only [List.foldl_cons, List.map_cons]
      rw [ih]
      simp [StampCollection.add_stamp]

/-- `load_collection` returns the rows mapped through
`_create_stamp_from_row`, in storage order. -/
theorem load_collection_stamps (db : DB) :
    (load_collection db).1.stamps = db.rows.map create_stamp_from_row := by
  unfold load_collection
  rw [foldl_add_stamp]
  rfl

/-- Row-level round trip: mapping a freshly inserted row back to a
record restores every field, provided the record avoids the lossy
truthiness branches (zero year, null quantities, empty condition
strings). -/
theorem create_stamp_round_trip (r : Stamp) (i : Nat)
    (hcg : r.condition_grade ≠ "") (hgg : r.gum_condition ≠ "")
    (hy : r.year ≠ some 0) (hqm : r.qty_mint ≠ none) (hqu : r.qty_used ≠ none) :
    create_stamp_from_row (stamp_to_tuple r i) = r := by
  obtain ⟨qm, hqm'⟩ := Option.ne_none_iff_exists.mp hqm
  obtain ⟨qu, hqu'⟩ := Option.ne_none_iff_exists.mp hqu
  obtain ⟨sn, de, co, yr, dn, cl, cg, gc, pf, us, pb, fd, lo, no, oqm, oqu,
    cvm, cvu, pp, cmv, wl, fs, da, so, ip⟩ := r
  simp only at hcg hgg hy hqm' hqu' ⊢
  subst hqm' hqu'
  simp only [create_stamp_from_row, stamp_to_tuple, Option.getD_some, Stamp.mk.injEq]
  and_intros <;>
    first
    | trivial
    | (simp only [py_or_str]; split <;> simp_all)
    | (cases yr with
       | none => rfl
       | some y =>
           have hy' : y ≠ 0 := fun h => hy (by simp [h])
           simp [hy'])

end StampCollect

namespace StampCollect

/-- C1: the round-trip claim as stated is false: a valid record (with
non-empty `scott_number` and `description`) whose `year` is 0, whose
quantities are null, or whose condition strings are empty is not
returned equal to itself — `_create_stamp_from_row` maps year 0 to
`None`, null quantities to 0, and empty condition strings to
`"Unknown"`.  `bad_stamp` exhibits all of these at once. -/
theorem round_trip_counterexample :
    (load_collection (add_stamp empty_db bad_stamp).2).1.stamps ≠ [bad_stamp] := by
  decide

/-- C1 (amended): for a valid StampRecord whose `condition_grade` and
`gum_condition` are non-empty, whose `year` is not 0, and whose
quantities are not null, `load_collection` right after `add_stamp`
into the empty store yields exactly one record equal to the input in
every field, nulls preserved as nulls and currency values exact. -/
theorem round_trip_amended (r : Stamp)
    (_hs : r.scott_number ≠ "") (_hd : r.description ≠ "")
    (hcg : r.condition_grade ≠ "") (hgg : r.gum_condition ≠ "")
    (hy : r.year ≠ some 0) (hqm : r.qty_mint ≠ none) (hqu : r.qty_used ≠ none) :
    (load_collection (add_stamp empty_db r).2).1.stamps = [r] := by
  rw [load_collection_stamps]
  show [create_stamp_from_row (stamp_to_tuple r 1)] = [r]
  rw [create_stamp_round_trip r 1 hcg hgg hy hqm hqu]

/-- C1 witness: the amended round trip evaluated on the spec's
scenario record. -/
theorem round_trip_witness :
    sample_stamp.scott_number ≠ "" ∧ sample_stamp.description ≠ "" ∧
    (load_collection (add_stamp empty_db sample_stamp).2).1.stamps = [sample_stamp] :=
  ⟨by decide, by decide,
    round_trip_amended sample_stamp (by decide) (by decide) (by decide)
      (by decide) (by decide) (by decide) (by decide)⟩

/-- C2: `calculate_total_value` equals `catalog_value_used * qty_used`
when `used` and `catalog_value_mint * qty_mint` otherwise, a null
quantity counting as 0; it is a total function on records (never
raises) and computes in exact decimal arithmetic. -/
theorem calculate_total_value_law (s : Stamp) :
    s.calculate_total_value =
      if s.used then s.catalog_value_used * ((s.qty_used.getD 0 : Int) : Decimal)
      else s.catalog_value_mint * ((s.qty_mint.getD 0 : Int) : Decimal) := by
  unfold Stamp.calculate_total_value
  cases s.qty_used <;> cases s.qty_mint <;> rfl

/-- C7: `update_stamp` and `delete_stamp` on an id that is not in the
table return without error and leave the stored rows unchanged. -/
theorem missing_id_noop (db : DB) (i : Nat) (s : Stamp)
    (h : i ∉ db.rows.map Row.id) :
    update_stamp db i s = db ∧ delete_stamp db i = db := by
  have hr : ∀ r ∈ db.rows, r.id ≠ i := by
    intro r hrr he
    exact h (he ▸ List.mem_map_of_mem Row.id hrr)
  constructor
  · unfold update_stamp
    have : db.rows.map (fun r => if r.id = i then stamp_to_tuple s i else r) = db.rows := by
      rw [List.map_congr_left (fun r hm => if_neg (hr r hm)), List.map_id']
    rw [this]
  · unfold delete_stamp
    have : db.rows.filter (fun r => r.id ≠ i) = db.rows :=
      List.filter_eq_self.mpr (fun r hm => by simp [hr r hm])
    rw [this]

/-- C7 witness: updating and deleting the absent id 2 in the one-row
store leaves it untouched. -/
theorem missing_id_noop_witness :
    (2 ∉ sample_db.rows.map Row.id) ∧
    (update_stamp sample_db 2 bad_stamp = sample_db ∧ delete_stamp sample_db 2 = sample_db) :=
  ⟨by decide, missing_id_noop sample_db 2 bad_stamp (by decide)⟩

/-- C10: the read operations — `load_collection`, `search_stamps` with
any criteria, and `get_statistics` — return the stored state exactly
as it was. -/
theorem reads_leave_state_unchanged (db : DB) (c : Criteria) :
    (load_collection db).2 = db ∧ (search_stamps db c).2 = db ∧
    (get_statistics db).2 = db := by
  refine ⟨rfl, ?_, rfl⟩
  unfold search_stamps
  cases row_predicate c <;> rfl

/-- A stored row whose `condition_grade` and `gum_condition` hold the
empty string (non-NULL). -/
def empty_grade_row : Row :=
  { base_row with condition_grade := some "", gum_condition := some "" }

/-- A one-row store around `empty_grade_row`. -/
def empty_grade_db : DB := { rows := [empty_grade_row], next_id := 2 }

/-- C8: the condition-field mapping claim is false as stated: the
stored empty string is non-NULL, yet `_create_stamp_from_row` coerces
it to `"Unknown"` too (`str(row[7] or 'Unknown')` treats `''` as
falsy), so loading does not return it unchanged. -/
theorem condition_mapping_counterexample :
    empty_grade_row.condition_grade = some "" ∧
    empty_grade_row.gum_condition = some "" ∧
    (load_collection empty_grade_db).1.stamps.map Stamp.condition_grade = ["Unknown"] ∧
    (load_collection empty_grade_db).1.stamps.map Stamp.gum_condition = ["Unknown"] := by
  decide

/-- C8 (amended): when loading a row, `condition_grade` and
`gum_condition` are coerced to `"Unknown"` exactly when the stored
column is NULL or the empty string; every other non-null stored string
(including values outside the enumerated sets) is returned
unchanged. -/
theorem condition_mapping_amended (row : Row) :
    ((row.condition_grade = none ∨ row.condition_grade = some "") →
      (create_stamp_from_row row).condition_grade = "Unknown") ∧
    (∀ s, row.condition_grade = some s → s ≠ "" →
      (create_stamp_from_row row).condition_grade = s) ∧
    ((row.gum_condition = none ∨ row.gum_condition = some "") →
      (create_stamp_from_row row).gum_condition = "Unknown") ∧
    (∀ s, row.gum_condition = some s → s ≠ "" →
      (create_stamp_from_row row).gum_condition = s) := by
  refine ⟨?_, ?_, ?_, ?_⟩
  · rintro (h | h) <;> simp [create_stamp_from_row, py_or_str, h]
  · intro s hs hne
    simp [create_stamp_from_row, py_or_str, hs, hne]
  · rintro (h | h) <;> simp [create_stamp_from_row, py_or_str, h]
  · intro s hs hne
    simp [create_stamp_from_row, py_or_str, hs, hne]

/-- A stored row holding strings outside the enumerated condition
sets. -/
def odd_grade_row : Row :=
  { base_row with condition_grade := some "Decent", gum_condition := some "Sticky" }

/-- C8 witness: a row storing the out-of-enumeration strings
`"Decent"` and `"Sticky"` loads them unchanged, and the empty-string
columns of `empty_grade_row` load as `"Unknown"`. -/
theorem condition_mapping_witness :
    (create_stamp_from_row odd_grade_row).condition_grade = "Decent" ∧
    (create_stamp_from_row odd_grade_row).gum_condition = "Sticky" ∧
    (create_stamp_from_row empty_grade_row).condition_grade = "Unknown" :=
  ⟨(condition_mapping_amended odd_grade_row).2.1 "Decent" rfl (by decide),
   (condition_mapping_amended odd_grade_row).2.2.2 "Sticky" rfl (by decide),
   (condition_mapping_amended empty_grade_row).1 (Or.inr rfl)⟩

/-- A stored row whose `year` column holds 0 (non-NULL). -/
def year_zero_row : Row := { base_row with year := some 0 }

/-- A one-row store around `year_zero_row`. -/
def year_zero_db : DB := { rows := [year_zero_row], next_id := 2 }

/-- C9: the year mapping claim is false as stated: the stored year 0
is non-null, but `int(row[4]) if row[4] else None` treats 0 as falsy,
so it loads as absent rather than as the integer 0. -/
theorem year_mapping_counterexample :
    year_zero_row.year = some 0 ∧
    (load_collection year_zero_db).1.stamps.map Stamp.year = [none] := by
  decide

/-- C9 (amended): when loading a row, a NULL or zero year column maps
to an absent year; every other stored year value maps to itself as an
integer. -/
theorem year_mapping_amended (row : Row) :
    ((row.year = none ∨ row.year = some 0) →
      (create_stamp_from_row row).year = none) ∧
    (∀ y, row.year = some y → y ≠ 0 →
      (create_stamp_from_row row).year = some y) := by
  constructor
  · rintro (h | h) <;> simp [create_stamp_from_row, h]
  · intro y hy hne
    simp [create_stamp_from_row, hy, hne]

/-- C9 witness: the amended mapping evaluated at a stored year 1990
and at the stored year 0. -/
theorem year_mapping_witness :
    (create_stamp_from_row { base_row with year := some 1990 }).year = some 1990 ∧
    (create_stamp_from_row year_zero_row).year = none :=
  ⟨(year_mapping_amended _).2 1990 rfl (by decide),
   (year_mapping_amended year_zero_row).1 (Or.inr rfl)⟩

/-- C4: the empty-criteria claim is false for an empty criteria
mapping: `search_stamps` reads `criteria['description']` and the
lookup raises `KeyError` instead of returning the stored rows. -/
theorem search_empty_mapping_counterexample :
    (search_stamps sample_db ({} : Criteria)).1 =
      Except.error "KeyError: description" := by
  rfl

/-- C4 (amended): when all seven criteria keys are supplied with
empty/falsy values (as every caller does), search succeeds and
returns every stored row paired with its id, with the same cardinality
as `load_collection`. -/
theorem search_blank_criteria_all_rows (db : DB) :
    (search_stamps db blank_criteria).1 =
      Except.ok (db.rows.map (fun r => (r.id, create_stamp_from_row r))) ∧
    (result_list (search_stamps db blank_criteria).1).length =
      (load_collection db).1.stamps.length := by
  have hp : ∀ r, matches_row "" "" "" none none false false r = true := by
    intro r; rfl
  have hf : db.rows.filter (matches_row "" "" "" none none false false) = db.rows := by
    exact List.filter_eq_self.mpr (fun r _ => hp r)
  constructor
  · show Except.ok _ = Except.ok _
    rw [hf]
  · show (result_list (Except.ok _)).length = _
    rw [load_collection_stamps, result_list, hf]
    simp

/-- A criteria dict with every key present except `used_only`. -/
def no_used_only_criteria : Criteria := { blank_criteria with used_only := none }

/-- C6: the claim is false for an absent `used_only` key: rather than
imposing no constraint, `criteria['used_only']` raises `KeyError`, so
the search fails instead of returning the stored (unused) row. -/
theorem used_only_absent_counterexample :
    (search_stamps sample_db no_used_only_criteria).1 =
      Except.error "KeyError: used_only" := by
  rfl

/-- The WHERE predicate of the all-blank criteria dict. -/
def blank_predicate : Row → Bool :=
  matches_row "" "" "" none none false false

/-- C6 (amended): for a criteria dict containing all keys,
`used_only = true` restricts the results to rows whose `used` column
is true, while `used_only = false` imposes no constraint on the used
column (the WHERE predicate is independent of it — in particular it
does not restrict to `used = false`); `want_list` follows the same
pattern.  A dict missing one of these keys instead raises `KeyError`
(see the counterexample). -/
theorem used_only_flag_amended (c : Criteria) (db : DB) (p : Row → Bool)
    (hp : row_predicate c = Except.ok p) :
    (c.used_only = some true →
      (∀ r, p r = true → r.used = some true) ∧
      (∀ i s, (i, s) ∈ result_list (search_stamps db c).1 → s.used = true)) ∧
    (c.used_only = some false → ∀ r u, p { r with used := u } = p r) ∧
    (c.want_list = some true →
      (∀ r, p r = true → r.want_list = some true) ∧
      (∀ i s, (i, s) ∈ result_list (search_stamps db c).1 → s.want_list = true)) ∧
    (c.want_list = some false → ∀ r w, p { r with want_list := w } = p r) := by
  obtain ⟨d, sn, co, yf, yt, uo, wl⟩ := c
  cases d <;> cases sn <;> cases co <;> cases yf <;> cases yt <;> cases uo <;> cases wl <;>
    simp only [row_predicate, key_get] at hp
  all_goals try exact Except.noConfusion hp
  rename_i d sn co yf yt uo wl
  obtain rfl : matches_row d sn co yf yt uo wl = p := Except.ok.inj hp
  have hmem : ∀ i s, (i, s) ∈ result_list (search_stamps db ⟨some d, some sn, some co,
      some yf, some yt, some uo, some wl⟩).1 →
      ∃ r ∈ db.rows, matches_row d sn co yf yt uo wl r = true ∧
        s = create_stamp_from_row r := by
    intro i s hm
    simp only [search_stamps, row_predicate, key_get, result_list, List.mem_map,
      List.mem_filter] at hm
    obtain ⟨r, ⟨hr, hmr⟩, he⟩ := hm
    exact ⟨r, hr, hmr, (congrArg Prod.snd he).symm⟩
  refine ⟨?_, ?_, ?_, ?_⟩
  · intro huo
    obtain rfl : uo = true := by simpa using huo
    have hused : ∀ r, matches_row d sn co yf yt true wl r = true → r.used = some true := by
      intro r hm
      simp only [matches_row, Bool.and_eq_true] at hm
      simpa using hm.1.2
    refine ⟨hused, ?_⟩
    intro i s hm
    obtain ⟨r, -, hmr, rfl⟩ := hmem i s hm
    have hr := hused r hmr
    simp [create_stamp_from_row, hr]
  · intro huo
    obtain rfl : uo = false := by simpa using huo
    intro r u
    simp [matches_row]
  · intro hwl
    obtain rfl : wl = true := by simpa using hwl
    have hwant : ∀ r, matches_row d sn co yf yt uo true r = true → r.want_list = some true := by
      intro r hm
      simp only [matches_row, Bool.and_eq_true] at hm
      simpa using hm.2
    refine ⟨hwant, ?_⟩
    intro i s hm
    obtain ⟨r, -, hmr, rfl⟩ := hmem i s hm
    have hr := hwant r hmr
    simp [create_stamp_from_row, hr]
  · intro hwl
    obtain rfl : wl = false := by simpa using hwl
    intro r w
    simp [matches_row]

/-- C6 witness: the amended flag semantics evaluated on the all-blank
criteria dict (`used_only = false`, `want_list = false`): flipping the
`used` column of a row does not change whether it matches. -/
theorem used_only_flag_witness :
    blank_predicate { base_row with used := some true } = blank_predicate base_row :=
  (used_only_flag_amended blank_criteria empty_db blank_predicate rfl).2.1 rfl
    base_row (some true)

/-- The SQL CASE term of a row, with SUM's NULL-skipping folded in
(a skipped NULL term contributes what a 0 term would), equals the
derived total value of the loaded record: the null-to-zero coercions
of `_create_stamp_from_row` make the products agree. -/
theorem row_case_value_getD (r : Row) :
    (row_case_value r).getD 0 = (create_stamp_from_row r).calculate_total_value := by
  obtain ⟨i, sn, de, co, yr, dn, cl, cg, gc, pf, us, pb, fd, lo, no, qm, qu,
    cvm, cvu, pp, cmv, wl, fs, da, so, ip⟩ := r
  rcases us with - | b
  · simp only [row_case_value, create_stamp_from_row, Stamp.calculate_total_value]
    rcases cvm with - | v <;> rcases qm with - | q <;> simp
  · cases b
    · simp only [row_case_value, create_stamp_from_row, Stamp.calculate_total_value]
      rcases cvm with - | v <;> rcases qm with - | q <;> simp
    · simp only [row_case_value, create_stamp_from_row, Stamp.calculate_total_value]
      rcases cvu with - | v <;> rcases qu with - | q <;> simp

/-- SUM over the non-NULL CASE terms equals the sum over all rows of
the NULL-coerced CASE terms. -/
theorem filterMap_case_sum (l : List Row) :
    (l.filterMap row_case_value).foldl (· + ·) 0 =
      (l.map (fun r => (row_case_value r).getD 0)).foldl (· + ·) (0 : Decimal) := by
  rw [← List.sum_eq_foldl, ← List.sum_eq_foldl]
  induction l with
  | nil => rfl
  | cons hd tl ih =>
      cases hcase : row_case_value hd <;>
        simp [List.filterMap_cons, hcase, ih, List.sum_cons]

/-- A record whose catalog value 0.10 is not an IEEE double: the
failing input for C3's exactness requirement (see
`statistics_consistency_exact`). -/
def float_bug_stamp : Stamp :=
  { scott_number := "F"
    description := "Franklin"
    qty_mint := some 7
    catalog_value_mint := 1/10 }

/-- A one-row store holding `float_bug_stamp`. -/
def float_bug_db : DB := (add_stamp empty_db float_bug_stamp).2

/-- C3: in the exact-decimal model of the SQL aggregation, the three
statistics laws hold for every stored state — `mint_stamps` is
`total_stamps - used_stamps`, `total_catalog_value` is the sum of
`calculate_total_value` over the loaded records, and `average_value`
is 0 on an empty table and the exact quotient otherwise — and on the
one-row store with `qty_mint = 7` and `catalog_value_mint = 0.10` the
exact total is 0.70.  The real code diverges from this exactness
requirement: `_stamp_to_tuple` stores currency through `float(...)`
and `get_statistics` lets SQLite multiply and sum REAL doubles, so on
that store it returns `Decimal(str(0.1 * 7)) =
Decimal('0.7000000000000001')`, not the exact decimal 0.70 the spec
demands ("summing floating-point currency amounts is a correctness
bug to avoid"); `Decimal` division for `average_value` additionally
rounds to 28 significant digits. -/
theorem statistics_consistency_exact (db : DB) :
    ((get_statistics db).1.mint_stamps =
      (get_statistics db).1.total_stamps - (get_statistics db).1.used_stamps) ∧
    ((get_statistics db).1.total_catalog_value =
      ((load_collection db).1.stamps.map Stamp.calculate_total_value).foldl (· + ·) 0) ∧
    ((get_statistics db).1.average_value =
      if (get_statistics db).1.total_stamps = 0 then 0
      else (get_statistics db).1.total_catalog_value /
        ((get_statistics db).1.total_stamps : Decimal)) ∧
    (get_statistics float_bug_db).1.total_catalog_value = 7/10 := by
  refine ⟨rfl, ?_, ?_, by
    norm_num [get_statistics, float_bug_db, float_bug_stamp, add_stamp,
      stamp_to_tuple, empty_db, row_case_value, List.filterMap_cons]⟩
  · show (db.rows.filterMap row_case_value).foldl (· + ·) 0 = _
    rw [load_collection_stamps, List.map_map, filterMap_case_sum]
    congr 1
    exact List.map_congr_left (fun r _ => by
      simpa [Function.comp] using row_case_value_getD r)
  · show (if 0 < db.rows.length then _ else _) = _
    by_cases h : db.rows.length = 0
    · simp [get_statistics, h]
    · have hpos : 0 < db.rows.length := Nat.pos_of_ne_zero h
      simp [get_statistics, h, hpos]

/-- The guarded WHERE condition a single criterion contributes: the
criterion's condition when its value is truthy, vacuously true when it
is falsy (then `search_stamps` appends no condition). -/
def crit_cond : Criterion → Row → Bool
  | .description s, r => s = "" || sql_like_contains r.description s
  | .scott_number s, r => s = "" || sql_like_contains r.scott_number s
  | .country s, r => s = "" || sql_like_contains r.country s
  | .year_from y, r => (match y with | none => true | some n => sql_year_ge r.year n)
  | .year_to y, r => (match y with | none => true | some n => sql_year_le r.year n)
  | .used_only b, r => !b || r.used = some true
  | .want_list b, r => !b || r.want_list = some true

/-- A one-criterion dict has all keys, so its predicate builds, and it
is the criterion's own guarded condition. -/
theorem pred_of_one (a : Criterion) :
    ∃ p, row_predicate (of_one a) = Except.ok p ∧ ∀ r, p r = crit_cond a r := by
  cases a <;>
    exact ⟨_, rfl, fun r => by simp [matches_row, crit_cond]⟩

/-- A two-criteria dict on distinct keys has all keys, and its
predicate is the conjunction of the two guarded conditions. -/
theorem pred_of_two (a b : Criterion) (hab : a.key ≠ b.key) :
    ∃ p, row_predicate (of_two a b) = Except.ok p ∧
      ∀ r, p r = (crit_cond a r && crit_cond b r) := by
  cases a <;> cases b <;>
    first
    | exact absurd rfl hab
    | exact ⟨_, rfl, fun r => by simp [matches_row, crit_cond, Bool.and_comm]⟩

/-- Filtering by a conjunction selects exactly the ids in both
filtrates, when the row ids are distinct. -/
theorem ids_filter_inter (rows : List Row) (h : (rows.map Row.id).Nodup)
    (p q : Row → Bool) :
    ((rows.filter (fun r => p r && q r)).map Row.id).toFinset =
      ((rows.filter p).map Row.id).toFinset ∩
        ((rows.filter q).map Row.id).toFinset := by
  ext x
  simp only [List.mem_toFinset, List.mem_map, List.mem_filter, Finset.mem_inter,
    Bool.and_eq_true]
  constructor
  · rintro ⟨r, ⟨hr, hp', hq'⟩, rfl⟩
    exact ⟨⟨r, ⟨hr, hp'⟩, rfl⟩, ⟨r, ⟨hr, hq'⟩, rfl⟩⟩
  · rintro ⟨⟨r1, hr1, he1⟩, ⟨r2, hr2, he2⟩⟩
    obtain rfl : r2 = r1 :=
      List.inj_on_of_nodup_map h hr2.1 hr1.1 (he2.trans he1.symm)
    exact ⟨r2, ⟨hr1.1, hr1.2, hr2.2⟩, he1⟩

/-- C5: for any two criteria on distinct keys and any stored state
with distinct row ids, the ids returned by searching with both
criteria are exactly the intersection of the ids returned by searching
with each criterion alone. -/
theorem search_conjunction (a b : Criterion) (hab : a.key ≠ b.key) (db : DB)
    (hid : (db.rows.map Row.id).Nodup) :
    result_ids (search_stamps db (of_two a b)).1 =
      result_ids (search_stamps db (of_one a)).1 ∩
        result_ids (search_stamps db (of_one b)).1 := by
  obtain ⟨pa, hpa, hpa'⟩ := pred_of_one a
  obtain ⟨pb, hpb, hpb'⟩ := pred_of_one b
  obtain ⟨pab, hpab, hpab'⟩ := pred_of_two a b hab
  have eids : ∀ (c : Criteria) (p : Row → Bool), row_predicate c = Except.ok p →
      result_ids (search_stamps db c).1 = ((db.rows.filter p).map Row.id).toFinset := by
    intro c p hp
    unfold search_stamps
    rw [hp]
    simp only [result_ids, List.map_map]
    rfl
  rw [eids _ _ hpa, eids _ _ hpb, eids _ _ hpab]
  have hfilter : db.rows.filter pab = db.rows.filter (fun r => pa r && pb r) :=
    List.filter_congr (fun r _ => by rw [hpab' r]; rw [hpa' r, hpb' r])
  rw [hfilter]
  exact ids_filter_inter db.rows hid pa pb

/-- A record matching both conjunction-witness criteria. -/
def conj_stamp1 : Stamp :=
  { scott_number := "C1", description := "First", country := some "USA", year := some 1995 }

/-- A record matching only the year criterion of the conjunction
witness. -/
def conj_stamp2 : Stamp :=
  { scott_number := "C2", description := "Second", country := some "Canada", year := some 1992 }

/-- A two-row store for the conjunction witness (ids 1 and 2). -/
def conj_db : DB := (add_stamp (add_stamp empty_db conj_stamp1).2 conj_stamp2).2

/-- C5 witness: the conjunction law evaluated on a two-row store with
the criteria `country = "usa"` (a case-insensitive substring match)
and `year_from = 1990`. -/
theorem search_conjunction_witness :
    Criterion.key (Criterion.country "usa") ≠
      Criterion.key (Criterion.year_from (some 1990)) ∧
    (conj_db.rows.map Row.id).Nodup ∧
    result_ids (search_stamps conj_db
        (of_two (Criterion.country "usa") (Criterion.year_from (some 1990)))).1 =
      result_ids (search_stamps conj_db (of_one (Criterion.country "usa"))).1 ∩
        result_ids (search_stamps conj_db (of_one (Criterion.year_from (some 1990)))).1 :=
  ⟨by decide, by decide,
    search_conjunction (Criterion.country "usa") (Criterion.year_from (some 1990))
      (by decide) conj_db (by decide)⟩

end StampCollect
